import Mathlib

/-!
Shallow embedding of the pandera pyspark typing adapter
(`src/pandera/typing/pyspark.py`) and proofs of the spec's claims about it.

The module is a thin adapter: three wrapper types (DataFrame, Series, Index),
a pydantic-integration mixin with a shared validation core `pydantic_validate`,
a pre-2.0 path `_pydantic_validate` driven by a field descriptor, a 2.0 path
`__get_pydantic_core_schema__` driven by the generic argument of the source
type, and an import-time availability gate on the optional pyspark dependency.

External collaborators (the schema model's `to_schema`, the compiled schema's
`validate`, pydantic's field descriptor and source type) are modelled as
records whose behaviour is a parameter, so the theorems quantify over every
behaviour those collaborators can exhibit.
-/

namespace Pandera

/-- Python exception values that can flow through the adapter: the two pandera
error classes it translates (`SchemaInitError`, `SchemaError`), the errors it
raises itself (`TypeError`, `ValueError`, `IndexError`), the `ImportError` of
the availability gate, and `AttributeError` standing for any untranslated
exception a collaborator may raise.  `valueError` carries the chained cause
(`raise ... from exc`). -/
inductive PyErr where
  | typeError (msg : String)
  | valueError (msg : String) (cause : Option PyErr)
  | indexError (msg : String)
  | importError (msg : String)
  | attributeError (msg : String)
  | schemaInitError (msg : String)
  | schemaError (msg : String)

/-- Python `str(exc)`: the message of the exception. -/
def PyErr.str : PyErr → String
  | .typeError m => m
  | .valueError m _ => m
  | .indexError m => m
  | .importError m => m
  | .attributeError m => m
  | .schemaInitError m => m
  | .schemaError m => m

/-- Whether the exception is a pandera `SchemaInitError` (the class caught by
the first `except` clause of `pydantic_validate`). -/
def PyErr.isSchemaInitError : PyErr → Bool
  | .schemaInitError _ => true
  | _ => false

/-- Whether the exception is a pandera `SchemaError` (the class caught by the
second `except` clause of `pydantic_validate`). -/
def PyErr.isSchemaError : PyErr → Bool
  | .schemaError _ => true
  | _ => false

/-- Modelled from the spec: the compiled schema is an external collaborator
(`pandera` schema objects are not under `src/`).  Spec sect. 6 gives its
contract as `Schema.validate(obj, lazy: bool) -> obj | raises SchemaError`:
success returns the input object itself.  A schema is therefore determined by
the exception (if any) it raises for a given object and laziness flag; the
exception is left arbitrary so that behaviours outside the documented contract
(raising something other than a SchemaError) are also covered. -/
structure Schema (Obj : Type) where
  raises : Obj → Bool → Option PyErr

/-- Modelled from the spec: `Schema.validate(obj, lazy)` returns the validated
native dataframe object unchanged (pass-through, not a copy) when the schema
raises nothing, and otherwise raises the schema's exception. -/
def Schema.validate {Obj : Type} (s : Schema Obj) (obj : Obj) (lazy : Bool) :
    Except PyErr Obj :=
  match s.raises obj lazy with
  | none => Except.ok obj
  | some e => Except.error e

/-- A schema model: an externally defined class exposing `to_schema()`, which
either returns a compiled schema or raises (a `SchemaInitError` per its
contract, but any exception is representable). -/
structure SchemaModel (Obj : Type) where
  to_schema : Except PyErr (Schema Obj)

/-- The guidance prefix of the ValueError raised when `to_schema()` fails,
from the f-string in `pydantic_validate`. -/
def schemaInitGuidance (clsName : String) : String :=
  "Cannot use " ++ clsName ++ " as a pydantic type as its " ++
  "DataFrameModel cannot be converted to a DataFrameSchema.\n" ++
  "Please revisit the model to address the following errors:" ++ "\n"

/-- Embedding of `_PydanticIntegrationMixIn.pydantic_validate(cls, obj,
schema_model)`: the first `try` calls `schema_model.to_schema()` and only a
`SchemaInitError` is rewrapped (guidance prefix, cause chained); the second
`try` calls `schema.validate(obj, lazy=False)` and only a `SchemaError` is
rewrapped as `ValueError(str(exc))` with the cause chained; every other
exception propagates; on success the validated object is returned. -/
def pydantic_validate {Obj : Type} (clsName : String) (obj : Obj)
    (schema_model : SchemaModel Obj) : Except PyErr Obj :=
  match schema_model.to_schema with
  | Except.error (PyErr.schemaInitError m) =>
      Except.error (PyErr.valueError
        (schemaInitGuidance clsName ++ PyErr.str (PyErr.schemaInitError m))
        (some (PyErr.schemaInitError m)))
  | Except.error e => Except.error e
  | Except.ok schema =>
      match schema.validate obj false with
      | Except.error (PyErr.schemaError m) =>
          Except.error (PyErr.valueError (PyErr.str (PyErr.schemaError m))
            (some (PyErr.schemaError m)))
      | Except.error e => Except.error e
      | Except.ok valid_data => Except.ok valid_data

/-- A sub-field of a pydantic (v1) field descriptor: carries the type argument
`type_` of the generic annotation. -/
structure SubField (Obj : Type) where
  type_ : SchemaModel Obj

/-- A pydantic (v1) field descriptor: `sub_fields` is empty exactly when the
wrapper type was used without a generic parameter. -/
structure ModelField (Obj : Type) where
  sub_fields : List (SubField Obj)

/-- The TypeError message of `_get_schema_model`, concatenated exactly as the
two adjacent string literals in the source. -/
def typeErrorMsg : String :=
  "Expected a typed pandera.typing.DataFrame," ++ " e.g. DataFrame[Schema]"

/-- Embedding of `_PydanticIntegrationMixIn._get_schema_model(cls, field)`:
raise `TypeError` when `field.sub_fields` is falsy, else return
`field.sub_fields[0].type_`. -/
def _get_schema_model {Obj : Type} (field : ModelField Obj) :
    Except PyErr (SchemaModel Obj) :=
  match field.sub_fields with
  | [] => Except.error (PyErr.typeError typeErrorMsg)
  | f :: _ => Except.ok f.type_

/-- Embedding of `_PydanticIntegrationMixIn._pydantic_validate(cls, obj,
field)`: extract the schema model from the field descriptor, then delegate to
`pydantic_validate`. -/
def _pydantic_validate {Obj : Type} (clsName : String) (obj : Obj)
    (field : ModelField Obj) : Except PyErr Obj :=
  match _get_schema_model field with
  | Except.error e => Except.error e
  | Except.ok schema_model => pydantic_validate clsName obj schema_model

/-- The source type pydantic hands to `__get_pydantic_core_schema__`:
`get_args(_source_type)` is its (possibly empty) tuple of generic arguments. -/
structure SourceType (Obj : Type) where
  args : List (SchemaModel Obj)

/-- A pydantic-core schema: for this module's purposes, the plain validator
function it registers. -/
structure CoreSchema (Obj : Type) where
  validator : Obj → Except PyErr Obj

/-- Embedding of `core_schema.no_info_plain_validator_function`. -/
def no_info_plain_validator_function {Obj : Type}
    (f : Obj → Except PyErr Obj) : CoreSchema Obj :=
  { validator := f }

/-- Embedding of `_PydanticIntegrationMixIn.__get_pydantic_core_schema__`:
take `get_args(_source_type)[0]` with no guard (an empty tuple raises
`IndexError`), then register `pydantic_validate` partially applied to that
schema model. -/
def get_pydantic_core_schema {Obj : Type} (clsName : String)
    (source_type : SourceType Obj) : Except PyErr (CoreSchema Obj) :=
  match source_type.args with
  | [] => Except.error (PyErr.indexError "tuple index out of range")
  | schema_model :: _ =>
      Except.ok (no_info_plain_validator_function
        (fun obj => pydantic_validate clsName obj schema_model))

/-- Embedding of `_PydanticIntegrationMixIn.__get_validators__` (pydantic
pre-2.0 path): yields the single validator `_pydantic_validate`. -/
def get_validators {Obj : Type} (clsName : String) :
    List (Obj → ModelField Obj → Except PyErr Obj) :=
  [fun obj field => _pydantic_validate clsName obj field]

/-- Modelled from the spec: `_GenericAlias` (imported from
`pandera.typing.pandas`, which is not under `src/`) pairs the subscripted
class with the subscript item and preserves the item for later retrieval
(spec sect. 4.1 and glossary). -/
structure GenericAlias (α : Type) where
  origin : String
  item : α

/-- Embedding of `DataFrame.__class_getitem__`: return
`_GenericAlias(cls, item)`. -/
def DataFrame.class_getitem {α : Type} (item : α) : GenericAlias α :=
  { origin := "DataFrame", item := item }

/-- Embedding of `Series.__class_getitem__`: return
`_GenericAlias(cls, item)`. -/
def Series.class_getitem {α : Type} (item : α) : GenericAlias α :=
  { origin := "Series", item := item }

/-- The members of one of the module's wrapper class definitions that matter
here: its name, its base classes as written, and the `__class_getitem__`
override of its own body, if it has one. -/
structure WrapperClassDef (α : Type) where
  name : String
  bases : List String
  class_getitem : Option (α → GenericAlias α)

/-- The `DataFrame` class definition: its body defines `__class_getitem__`. -/
def DataFrame_classdef (α : Type) : WrapperClassDef α :=
  { name := "DataFrame",
    bases := ["DataFrameBase", "_PydanticIntegrationMixIn", "ps.DataFrame",
              "Generic[T]"],
    class_getitem := some DataFrame.class_getitem }

/-- The `Series` class definition: its body defines `__class_getitem__`. -/
def Series_classdef (α : Type) : WrapperClassDef α :=
  { name := "Series",
    bases := ["SeriesBase", "ps.Series", "Generic[GenericDtype]"],
    class_getitem := some Series.class_getitem }

/-- The `Index` class definition: its body is only a docstring and defines no
`__class_getitem__`. -/
def Index_classdef (α : Type) : WrapperClassDef α :=
  { name := "Index",
    bases := ["IndexBase", "ps.Index", "Generic[GenericDtype]"],
    class_getitem := none }

/-- Which of the three wrapper types the module defines after import. -/
structure ModuleExports where
  DataFrame_defined : Bool
  Series_defined : Bool
  Index_defined : Bool

/-- The `import pyspark.pandas as ps` statement: succeeds when the optional
dependency is importable, raises `ImportError` otherwise. -/
def import_pyspark_pandas (pyspark_importable : Bool) : Except PyErr Unit :=
  if pyspark_importable then Except.ok ()
  else Except.error (PyErr.importError "No module named pyspark")

/-- Embedding of the module's import-time behaviour: the `try` block sets
`PYSPARK_INSTALLED = True` on success, the `except ImportError` clause sets it
to `False`, any other exception would propagate; the three wrapper classes
are then defined only inside `if PYSPARK_INSTALLED:`. -/
def module_import (pyspark_importable : Bool) : Except PyErr ModuleExports :=
  match import_pyspark_pandas pyspark_importable with
  | Except.ok _ =>
      Except.ok { DataFrame_defined := true, Series_defined := true,
                  Index_defined := true }
  | Except.error (PyErr.importError _) =>
      Except.ok { DataFrame_defined := false, Series_defined := false,
                  Index_defined := false }
  | Except.error e => Except.error e

/-! Concrete collaborators used by the witnesses. -/

/-- A schema over `Nat` that raises nothing. -/
def schemaOkNat : Schema Nat := { raises := fun _ _ => none }

/-- A schema model whose `to_schema` succeeds with `schemaOkNat`. -/
def modelOkNat : SchemaModel Nat := { to_schema := Except.ok schemaOkNat }

/-- A schema over `Nat` that raises a `SchemaError` under eager validation
(`lazy = false`) but nothing under lazy validation, so only the eager branch
can explain a reported error. -/
def schemaBadNat : Schema Nat :=
  { raises := fun _ lazy =>
      if lazy then none else some (PyErr.schemaError "bad data") }

/-- A schema model whose `to_schema` succeeds with `schemaBadNat`. -/
def modelBadNat : SchemaModel Nat := { to_schema := Except.ok schemaBadNat }

/-- A schema model whose `to_schema` raises a `SchemaInitError`. -/
def modelInitErrNat : SchemaModel Nat :=
  { to_schema := Except.error (PyErr.schemaInitError "bad model") }

/-- A schema model whose `to_schema` raises an `AttributeError` (for example
because the generic parameter does not expose `to_schema`). -/
def modelAttrErrNat : SchemaModel Nat :=
  { to_schema :=
      Except.error (PyErr.attributeError "has no attribute to_schema") }

/-- A field descriptor with no sub-fields (unparameterized annotation). -/
def emptyFieldNat : ModelField Nat := { sub_fields := [] }

/-- A field descriptor whose first sub-field carries `modelOkNat`. -/
def fieldOkNat : ModelField Nat :=
  { sub_fields := [{ type_ := modelOkNat }] }

/-- A source type whose single generic argument is `modelOkNat`. -/
def stOkNat : SourceType Nat := { args := [modelOkNat] }

/-- A source type with no generic arguments (unparameterized). -/
def stEmptyNat : SourceType Nat := { args := [] }

/-! The claims. -/

/-- C1: for every schema model whose `to_schema()` succeeds and every object
that satisfies the resulting schema (its `validate` raises nothing),
`pydantic_validate` raises no error and returns the input object itself
(pass-through). -/
theorem c1_pass_through {Obj : Type} (clsName : String) (obj : Obj)
    (m : SchemaModel Obj) (s : Schema Obj)
    (hs : m.to_schema = Except.ok s)
    (hok : s.raises obj false = none) :
    pydantic_validate clsName obj m = Except.ok obj := by
  simp [pydantic_validate, hs, Schema.validate, hok]

/-- Witness for C1 at a concrete model, schema and object. -/
theorem c1_pass_through_witness :
    pydantic_validate "DataFrame" (7 : Nat) modelOkNat = Except.ok 7 :=
  c1_pass_through "DataFrame" 7 modelOkNat schemaOkNat rfl rfl

/-- C2: for every schema model whose `to_schema()` succeeds and every object
on which the schema raises a `SchemaError` at `lazy = false`,
`pydantic_validate` raises a ValueError whose message equals the stringified
schema error, with the original error chained as cause; moreover the outcome
is determined by the schema's behaviour at `lazy = false` alone, i.e. the
`validate` call is made with `lazy=False`. -/
theorem c2_schema_error_eager {Obj : Type} (clsName : String) (obj : Obj)
    (m : SchemaModel Obj) (s : Schema Obj) (msg : String)
    (hs : m.to_schema = Except.ok s)
    (hr : s.raises obj false = some (PyErr.schemaError msg)) :
    pydantic_validate clsName obj m =
      Except.error (PyErr.valueError (PyErr.str (PyErr.schemaError msg))
        (some (PyErr.schemaError msg)))
    ∧ ∀ s' : Schema Obj, s'.raises obj false = s.raises obj false →
        pydantic_validate clsName obj { to_schema := Except.ok s' } =
          pydantic_validate clsName obj m := by
  constructor
  · simp [pydantic_validate, hs, Schema.validate, hr]
  · intro s' h'
    simp [pydantic_validate, hs, Schema.validate, hr, h']

/-- Witness for C2 at a concrete model whose schema raises only under eager
validation. -/
theorem c2_schema_error_eager_witness :
    pydantic_validate "DataFrame" (0 : Nat) modelBadNat =
      Except.error (PyErr.valueError "bad data"
        (some (PyErr.schemaError "bad data"))) :=
  (c2_schema_error_eager "DataFrame" 0 modelBadNat schemaBadNat "bad data"
    rfl rfl).1

/-- C3: when the optional pyspark dependency is not importable, importing the
module raises no exception and none of the three wrapper types is defined. -/
theorem c3_availability_gate :
    module_import false =
      Except.ok { DataFrame_defined := false, Series_defined := false,
                  Index_defined := false } := rfl

/-- C4: for every schema model whose `to_schema()` raises a `SchemaInitError`,
`pydantic_validate` raises a ValueError whose message is the guidance prefix
followed by the original error's text (so it contains the original text and
is prefixed with guidance to revisit the model), with the original exception
chained as cause; and the guidance prefix indeed asks to revisit the model. -/
theorem c4_init_error {Obj : Type} (clsName : String) (obj : Obj)
    (m : SchemaModel Obj) (emsg : String)
    (h : m.to_schema = Except.error (PyErr.schemaInitError emsg)) :
    pydantic_validate clsName obj m =
      Except.error (PyErr.valueError (schemaInitGuidance clsName ++ emsg)
        (some (PyErr.schemaInitError emsg)))
    ∧ ∃ a b : String,
        schemaInitGuidance clsName =
          a ++ "Please revisit the model to address the following errors:"
            ++ b := by
  constructor
  · simp [pydantic_validate, h, PyErr.str]
  · exact ⟨"Cannot use " ++ clsName ++ " as a pydantic type as its " ++
      "DataFrameModel cannot be converted to a DataFrameSchema.\n", "\n", rfl⟩

/-- Witness for C4 at a concrete model whose `to_schema` fails. -/
theorem c4_init_error_witness :
    pydantic_validate "DataFrame" (0 : Nat) modelInitErrNat =
      Except.error (PyErr.valueError
        (schemaInitGuidance "DataFrame" ++ "bad model")
        (some (PyErr.schemaInitError "bad model"))) :=
  (c4_init_error "DataFrame" 0 modelInitErrNat "bad model" rfl).1

/-- C5: for every field descriptor with no sub-fields, `_get_schema_model`
raises a TypeError; `_pydantic_validate` on such a field yields that same
TypeError whatever the object, so no schema compilation or validation is ever
reached; and a TypeError is distinct from every ValueError. -/
theorem c5_unparameterized {Obj : Type} (clsName : String) (obj : Obj)
    (field : ModelField Obj) (h : field.sub_fields = []) :
    _get_schema_model field = Except.error (PyErr.typeError typeErrorMsg)
    ∧ _pydantic_validate clsName obj field =
        Except.error (PyErr.typeError typeErrorMsg)
    ∧ ∀ (msg : String) (cause : Option PyErr),
        PyErr.typeError typeErrorMsg ≠ PyErr.valueError msg cause := by
  refine ⟨?_, ?_, ?_⟩
  · simp [_get_schema_model, h]
  · simp [_pydantic_validate, _get_schema_model, h]
  · intro msg cause heq
    cases heq

/-- Witness for C5 at a concrete empty field descriptor. -/
theorem c5_unparameterized_witness :
    _pydantic_validate "DataFrame" (0 : Nat) emptyFieldNat =
      Except.error (PyErr.typeError typeErrorMsg) :=
  (c5_unparameterized "DataFrame" 0 emptyFieldNat rfl).2.1

/-- C6: subscripting the DataFrame wrapper type yields a generic-alias object
from which the item can be recovered exactly as given, and subscripting with
two different models yields distinct, non-interfering aliases, each keeping
its own item. -/
theorem c6_alias_roundtrip {α : Type} (a b : α) (hne : a ≠ b) :
    (DataFrame.class_getitem a).item = a
    ∧ (DataFrame.class_getitem b).item = b
    ∧ DataFrame.class_getitem a ≠ DataFrame.class_getitem b := by
  refine ⟨rfl, rfl, fun h => hne ?_⟩
  exact congrArg GenericAlias.item h

/-- Witness for C6 at two concrete distinct items. -/
theorem c6_alias_roundtrip_witness :
    (DataFrame.class_getitem (1 : Nat)).item = 1
    ∧ (DataFrame.class_getitem (2 : Nat)).item = 2
    ∧ DataFrame.class_getitem (1 : Nat) ≠ DataFrame.class_getitem 2 :=
  c6_alias_roundtrip 1 2 (by decide)

/-- C7 counterexample: it is not the case that all three wrapper class bodies
override `__class_getitem__` — the `Index` class body defines none. -/
theorem c7_counterexample :
    ¬ ((DataFrame_classdef Nat).class_getitem.isSome = true
       ∧ (Series_classdef Nat).class_getitem.isSome = true
       ∧ (Index_classdef Nat).class_getitem.isSome = true) := by
  intro h
  simpa [Index_classdef] using h.2.2

/-- C7 amended: DataFrame and Series override `__class_getitem__` to return
the custom generic alias carrying the subscript, while the `Index` class body
defines no `__class_getitem__` of its own. -/
theorem c7_amended_overrides (α : Type) :
    ((DataFrame_classdef α).class_getitem = some DataFrame.class_getitem
      ∧ ∀ x : α, (DataFrame.class_getitem x).item = x)
    ∧ ((Series_classdef α).class_getitem = some Series.class_getitem
      ∧ ∀ x : α, (Series.class_getitem x).item = x)
    ∧ (Index_classdef α).class_getitem = none :=
  ⟨⟨rfl, fun _ => rfl⟩, ⟨rfl, fun _ => rfl⟩, rfl⟩

/-- C8: the two registration paths have identical validation semantics: for
every object and every field descriptor whose first sub-field carries schema
model `M`, the pre-2.0 `_pydantic_validate` equals the shared core
`pydantic_validate` at `M`; the 2.0 hook registers a validator that computes
the same value; and the pre-2.0 `__get_validators__` yields validators that
also compute it. -/
theorem c8_paths_agree {Obj : Type} (clsName : String) (obj : Obj)
    (M : SchemaModel Obj) (field : ModelField Obj) (sf : SubField Obj)
    (rest : List (SubField Obj)) (st : SourceType Obj)
    (moreArgs : List (SchemaModel Obj))
    (hf : field.sub_fields = sf :: rest) (hty : sf.type_ = M)
    (hst : st.args = M :: moreArgs) :
    _pydantic_validate clsName obj field = pydantic_validate clsName obj M
    ∧ (∃ cs : CoreSchema Obj,
        get_pydantic_core_schema clsName st = Except.ok cs
        ∧ cs.validator obj = pydantic_validate clsName obj M)
    ∧ ∀ v ∈ get_validators clsName,
        v obj field = pydantic_validate clsName obj M := by
  refine ⟨?_, ?_, ?_⟩
  · simp [_pydantic_validate, _get_schema_model, hf, hty]
  · refine ⟨no_info_plain_validator_function
      (fun o => pydantic_validate clsName o M), ?_, rfl⟩
    simp [get_pydantic_core_schema, hst]
  · intro v hv
    simp [get_validators] at hv
    subst hv
    simp [_pydantic_validate, _get_schema_model, hf, hty]

/-- Witness for C8 at a concrete field descriptor and source type carrying the
same schema model. -/
theorem c8_paths_agree_witness :
    _pydantic_validate "DataFrame" (3 : Nat) fieldOkNat =
      pydantic_validate "DataFrame" (3 : Nat) modelOkNat :=
  (c8_paths_agree "DataFrame" 3 modelOkNat fieldOkNat
    { type_ := modelOkNat } [] stOkNat [] rfl rfl rfl).1

/-- C9: `pydantic_validate` translates only `SchemaInitError` from
`to_schema()` and `SchemaError` from `schema.validate`; any other exception
raised by either collaborator propagates to the caller untranslated. -/
theorem c9_untranslated_propagation {Obj : Type} (clsName : String)
    (obj : Obj) (m : SchemaModel Obj) :
    (∀ e : PyErr, m.to_schema = Except.error e →
        e.isSchemaInitError = false →
        pydantic_validate clsName obj m = Except.error e)
    ∧ ∀ (s : Schema Obj) (e : PyErr), m.to_schema = Except.ok s →
        s.raises obj false = some e → e.isSchemaError = false →
        pydantic_validate clsName obj m = Except.error e := by
  constructor
  · intro e he hnot
    cases e <;> simp_all [pydantic_validate, PyErr.isSchemaInitError]
  · intro s e hs hr hnot
    cases e <;>
      simp_all [pydantic_validate, Schema.validate, PyErr.isSchemaError]

/-- Witness for C9 at a concrete model whose `to_schema` raises an
`AttributeError`, which propagates unwrapped. -/
theorem c9_untranslated_propagation_witness :
    pydantic_validate "DataFrame" (0 : Nat) modelAttrErrNat =
      Except.error (PyErr.attributeError "has no attribute to_schema") :=
  (c9_untranslated_propagation "DataFrame" 0 modelAttrErrNat).1
    (PyErr.attributeError "has no attribute to_schema") rfl rfl

/-- C10: in the pydantic-v2 hook, the schema model is taken as the first
generic argument with no guard: for every unparameterized source type the
hook raises an IndexError at schema-introspection time, which is not the
TypeError of the field-extraction path. -/
theorem c10_unguarded_index {Obj : Type} (clsName : String)
    (st : SourceType Obj) (h : st.args = []) :
    get_pydantic_core_schema clsName st =
      Except.error (PyErr.indexError "tuple index out of range")
    ∧ ∀ msg : String,
        PyErr.indexError "tuple index out of range" ≠ PyErr.typeError msg := by
  constructor
  · simp [get_pydantic_core_schema, h]
  · intro msg heq
    cases heq

/-- Witness for C10 at a concrete source type with no generic arguments. -/
theorem c10_unguarded_index_witness :
    get_pydantic_core_schema "DataFrame" stEmptyNat =
      Except.error (PyErr.indexError "tuple index out of range") :=
  (c10_unguarded_index "DataFrame" stEmptyNat rfl).1

end Pandera
